import Mathlib

/-!
Shallow embedding of the Mergington High School activities API
(`src/app.py`): an in-memory roster of extracurricular activities,
with one read operation (`get_activities`) and two guarded mutations
(`signup_for_activity`, `unregister_from_activity`).

The Python dict `activities` maps an activity name to a record with
`description`, `schedule`, `max_participants` and `participants`.
We model the dict as an association list (key order preserved), the
record as a structure, and each HTTP handler as a state-passing
function returning the post-state together with either the success
message or the error it raises (`HTTPException 404` for a missing
activity, `400` for a duplicate signup or an absent unregistration).
-/

structure Activity where
  description : String
  schedule : String
  max_participants : Nat
  participants : List String
deriving DecidableEq, Repr

/-- The roster: the in-memory mapping from activity name to activity record. -/
abbrev Roster := List (String × Activity)

namespace Roster

/-- Dict lookup: `activities[activity_name]` / `activity_name in activities`. -/
def lookup : Roster → String → Option Activity
  | [], _ => none
  | e :: rest, name => if e.1 = name then some e.2 else lookup rest name

/-- In-place update of the record stored under `name` (Python mutates the
dict value through the shared reference `activity`). -/
def setEntry : Roster → String → Activity → Roster
  | [], _, _ => []
  | e :: rest, name, a =>
    (if e.1 = name then (e.1, a) else e) :: setEntry rest name a

end Roster

/-- The three client errors raised by the handlers. -/
inductive ApiError where
  | NotFound
  | AlreadyEnrolled
  | NotEnrolled
deriving DecidableEq, Repr

/-- Python `list.remove`: delete the first occurrence of `y` (the handlers
check membership first, so the absent case never raises here). -/
def removeFirst : List String → String → List String
  | [], _ => []
  | x :: xs, y => if x = y then xs else x :: removeFirst xs y

/-- `GET /activities`: returns the whole mapping as-is, reading the state. -/
def get_activities (r : Roster) : Roster × Roster := (r, r)

/-- `POST /activities/{activity_name}/signup?email=...`:
404 if the activity is absent, 400 if the email is already signed up,
otherwise append the email to the participants list. -/
def signup_for_activity (r : Roster) (activity_name email : String) :
    Roster × Except ApiError String :=
  match r.lookup activity_name with
  | none => (r, Except.error ApiError.NotFound)
  | some activity =>
    if email ∈ activity.participants then
      (r, Except.error ApiError.AlreadyEnrolled)
    else
      (r.setEntry activity_name
        { activity with participants := activity.participants ++ [email] },
       Except.ok ("Signed up " ++ email ++ " for " ++ activity_name))

/-- `DELETE /activities/{activity_name}/unregister?email=...`:
404 if the activity is absent, 400 if the email is not registered,
otherwise remove the first occurrence of the email. -/
def unregister_from_activity (r : Roster) (activity_name email : String) :
    Roster × Except ApiError String :=
  match r.lookup activity_name with
  | none => (r, Except.error ApiError.NotFound)
  | some activity =>
    if email ∉ activity.participants then
      (r, Except.error ApiError.NotEnrolled)
    else
      (r.setEntry activity_name
        { activity with participants := removeFirst activity.participants email },
       Except.ok ("Unregistered " ++ email ++ " from " ++ activity_name))

/-- The seed data: the nine activities defined at module load. -/
def activities : Roster := [
  ("Soccer Team",
   { description := "Join the school soccer team and compete in inter-school matches",
     schedule := "Tuesdays and Thursdays, 4:00 PM - 6:00 PM",
     max_participants := 25,
     participants := ["alex@mergington.edu", "sarah@mergington.edu"] }),
  ("Basketball Team",
   { description := "Practice basketball skills and participate in league games",
     schedule := "Mondays and Wednesdays, 4:00 PM - 5:30 PM",
     max_participants := 15,
     participants := ["james@mergington.edu", "lucy@mergington.edu"] }),
  ("Drama Club",
   { description := "Perform in school plays and develop acting skills",
     schedule := "Thursdays, 3:30 PM - 5:30 PM",
     max_participants := 20,
     participants := ["emily@mergington.edu", "noah@mergington.edu"] }),
  ("Art Studio",
   { description := "Explore various art mediums including painting, drawing, and sculpture",
     schedule := "Wednesdays, 3:00 PM - 5:00 PM",
     max_participants := 15,
     participants := ["ava@mergington.edu", "liam@mergington.edu"] }),
  ("Science Club",
   { description := "Conduct experiments and participate in science competitions",
     schedule := "Mondays, 3:30 PM - 5:00 PM",
     max_participants := 18,
     participants := ["william@mergington.edu", "isabella@mergington.edu"] }),
  ("Debate Team",
   { description := "Develop critical thinking and public speaking through competitive debates",
     schedule := "Fridays, 4:00 PM - 6:00 PM",
     max_participants := 16,
     participants := ["ethan@mergington.edu", "mia@mergington.edu"] }),
  ("Chess Club",
   { description := "Learn strategies and compete in chess tournaments",
     schedule := "Fridays, 3:30 PM - 5:00 PM",
     max_participants := 12,
     participants := ["michael@mergington.edu", "daniel@mergington.edu"] }),
  ("Programming Class",
   { description := "Learn programming fundamentals and build software projects",
     schedule := "Tuesdays and Thursdays, 3:30 PM - 4:30 PM",
     max_participants := 20,
     participants := ["emma@mergington.edu", "sophia@mergington.edu"] }),
  ("Gym Class",
   { description := "Physical education and sports activities",
     schedule := "Mondays, Wednesdays, Fridays, 2:00 PM - 3:00 PM",
     max_participants := 30,
     participants := ["john@mergington.edu", "olivia@mergington.edu"] })]

/-- The roster invariant: no activity's participant list repeats an id. -/
def rosterInv (r : Roster) : Prop := ∀ e ∈ r, e.2.participants.Nodup

/-- States reachable from the seed data by any sequence of signup and
unregister calls (each call moves to its post-state, whether it
succeeded or raised). -/
inductive Reachable : Roster → Prop where
  | seed : Reachable activities
  | enroll (r : Roster) (n p : String) :
      Reachable r → Reachable (signup_for_activity r n p).1
  | withdraw (r : Roster) (n p : String) :
      Reachable r → Reachable (unregister_from_activity r n p).1

/-! ### Helper lemmas about the embedded operations -/

theorem lookup_mem {r : Roster} {n : String} {a : Activity}
    (h : r.lookup n = some a) : (n, a) ∈ r := by
  induction r with
  | nil => simp [Roster.lookup] at h
  | cons e rest ih =>
    rw [Roster.lookup] at h
    by_cases hk : e.1 = n
    · rw [if_pos hk] at h
      injection h with h
      have : e = (n, a) := by
        obtain ⟨k, v⟩ := e
        simp at hk h
        rw [hk, h]
      exact this ▸ List.mem_cons_self _ _
    · rw [if_neg hk] at h
      exact List.mem_cons_of_mem _ (ih h)

theorem lookup_setEntry_self {r : Roster} {n : String} {b : Activity} (a : Activity)
    (h : r.lookup n = some b) : (r.setEntry n a).lookup n = some a := by
  induction r with
  | nil => simp [Roster.lookup] at h
  | cons e rest ih =>
    by_cases hk : e.1 = n
    · simp [Roster.setEntry, Roster.lookup, hk]
    · rw [Roster.lookup, if_neg hk] at h
      simp [Roster.setEntry, Roster.lookup, hk, ih h]

theorem lookup_setEntry_ne {r : Roster} {n m : String} (a : Activity) (h : m ≠ n) :
    (r.setEntry n a).lookup m = r.lookup m := by
  induction r with
  | nil => rfl
  | cons e rest ih =>
    by_cases hk : e.1 = n
    · have hne : e.1 ≠ m := fun he => h (he.symm.trans hk)
      simp [Roster.setEntry, Roster.lookup, hk, hne, Ne.symm h, ih]
    · by_cases hk' : e.1 = m
      · simp [Roster.setEntry, Roster.lookup, hk, hk', h, Ne.symm h]
      · simp [Roster.setEntry, Roster.lookup, hk, hk', ih]

theorem setEntry_keys (r : Roster) (n : String) (a : Activity) :
    (r.setEntry n a).map Prod.fst = r.map Prod.fst := by
  induction r with
  | nil => rfl
  | cons e rest ih =>
    by_cases hk : e.1 = n
    · simp [Roster.setEntry, hk, ih]
    · simp [Roster.setEntry, hk, ih]

theorem removeFirst_sublist (xs : List String) (y : String) :
    List.Sublist (removeFirst xs y) xs := by
  induction xs with
  | nil => exact List.Sublist.refl _
  | cons x xs ih =>
    rw [removeFirst]
    by_cases hx : x = y
    · rw [if_pos hx]
      exact List.Sublist.cons x (List.Sublist.refl xs)
    · rw [if_neg hx]
      exact List.Sublist.cons₂ x ih

theorem removeFirst_first_occurrence (xs ys : List String) {y : String} (h : y ∉ xs) :
    removeFirst (xs ++ y :: ys) y = xs ++ ys := by
  induction xs with
  | nil => simp [removeFirst]
  | cons x xs ih =>
    rw [List.mem_cons, not_or] at h
    rw [List.cons_append, removeFirst, if_neg (Ne.symm h.1), ih h.2, List.cons_append]

theorem signup_not_found {r : Roster} {n : String} (p : String) (h : r.lookup n = none) :
    signup_for_activity r n p = (r, Except.error ApiError.NotFound) := by
  simp only [signup_for_activity, h]

theorem signup_already {r : Roster} {n p : String} {act : Activity}
    (h : r.lookup n = some act) (hp : p ∈ act.participants) :
    signup_for_activity r n p = (r, Except.error ApiError.AlreadyEnrolled) := by
  simp only [signup_for_activity, h]
  rw [if_pos hp]

theorem signup_ok {r : Roster} {n p : String} {act : Activity}
    (h : r.lookup n = some act) (hp : p ∉ act.participants) :
    signup_for_activity r n p =
      (r.setEntry n { act with participants := act.participants ++ [p] },
       Except.ok ("Signed up " ++ p ++ " for " ++ n)) := by
  simp only [signup_for_activity, h]
  rw [if_neg hp]

theorem unregister_not_found {r : Roster} {n : String} (p : String) (h : r.lookup n = none) :
    unregister_from_activity r n p = (r, Except.error ApiError.NotFound) := by
  simp only [unregister_from_activity, h]

theorem unregister_not_enrolled {r : Roster} {n p : String} {act : Activity}
    (h : r.lookup n = some act) (hp : p ∉ act.participants) :
    unregister_from_activity r n p = (r, Except.error ApiError.NotEnrolled) := by
  simp only [unregister_from_activity, h]
  rw [if_pos hp]

theorem unregister_ok {r : Roster} {n p : String} {act : Activity}
    (h : r.lookup n = some act) (hp : p ∈ act.participants) :
    unregister_from_activity r n p =
      (r.setEntry n { act with participants := removeFirst act.participants p },
       Except.ok ("Unregistered " ++ p ++ " from " ++ n)) := by
  simp only [unregister_from_activity, h]
  rw [if_neg (not_not_intro hp)]

theorem rosterInv_setEntry : ∀ {r : Roster} {n : String} {a : Activity},
    rosterInv r → a.participants.Nodup → rosterInv (r.setEntry n a)
  | [], _, _, _, _ => by intro e he; cases he
  | e₀ :: rest, n, a, h, ha => by
    intro e he
    rw [Roster.setEntry] at he
    rcases List.mem_cons.mp he with he | he
    · subst he
      by_cases hk : e₀.1 = n
      · simpa [hk] using ha
      · simpa [hk] using h e₀ (List.mem_cons_self _ _)
    · exact rosterInv_setEntry (fun e' he' => h e' (List.mem_cons_of_mem _ he')) ha e he

theorem rosterInv_signup {r : Roster} (n p : String) (h : rosterInv r) :
    rosterInv (signup_for_activity r n p).1 := by
  cases hl : r.lookup n with
  | none => rw [signup_not_found p hl]; exact h
  | some act =>
    by_cases hp : p ∈ act.participants
    · rw [signup_already hl hp]; exact h
    · rw [signup_ok hl hp]
      refine rosterInv_setEntry h ?_
      have hnd : act.participants.Nodup := h (n, act) (lookup_mem hl)
      simp [List.nodup_append, hnd, hp]

theorem rosterInv_unregister {r : Roster} (n p : String) (h : rosterInv r) :
    rosterInv (unregister_from_activity r n p).1 := by
  cases hl : r.lookup n with
  | none => rw [unregister_not_found p hl]; exact h
  | some act =>
    by_cases hp : p ∈ act.participants
    · rw [unregister_ok hl hp]
      refine rosterInv_setEntry h ?_
      have hnd : act.participants.Nodup := h (n, act) (lookup_mem hl)
      exact List.Nodup.sublist (removeFirst_sublist _ _) hnd
    · rw [unregister_not_enrolled hl hp]; exact h

theorem rosterInv_activities : rosterInv activities := by
  unfold rosterInv
  decide

/-! ### The claims -/

/-- Claim C1: for every roster state, activity name and participant id, enroll
fails with NotFound when the name is not a key of the roster; fails with
AlreadyEnrolled when the id is already in that activity's participant
sequence; and otherwise succeeds, appending the id to the end of the
sequence and returning a confirmation containing the id and the name. -/
theorem C1_enroll_spec (r : Roster) (name p : String) :
    (r.lookup name = none →
      signup_for_activity r name p = (r, Except.error ApiError.NotFound)) ∧
    (∀ act, r.lookup name = some act → p ∈ act.participants →
      signup_for_activity r name p = (r, Except.error ApiError.AlreadyEnrolled)) ∧
    (∀ act, r.lookup name = some act → p ∉ act.participants →
      signup_for_activity r name p =
        (r.setEntry name { act with participants := act.participants ++ [p] },
         Except.ok ("Signed up " ++ p ++ " for " ++ name)) ∧
      (∃ u v, ("Signed up " ++ p ++ " for " ++ name : String) = u ++ p ++ v) ∧
      (∃ u v, ("Signed up " ++ p ++ " for " ++ name : String) = u ++ name ++ v)) := by
  refine ⟨fun h => signup_not_found p h, fun act h hp => signup_already h hp,
    fun act h hp => ⟨signup_ok h hp,
      ⟨"Signed up ", " for " ++ name, ?_⟩,
      ⟨"Signed up " ++ p ++ " for ", "", ?_⟩⟩⟩
  · rw [String.append_assoc]
  · rw [String.append_empty]

/-- Concrete instances of C1: a missing activity, a duplicate signup, and a
fresh signup against the seed data. -/
theorem C1_enroll_spec_witness :
    signup_for_activity activities "Nonexistent Activity" "x@mergington.edu" =
      (activities, Except.error ApiError.NotFound) ∧
    signup_for_activity activities "Chess Club" "michael@mergington.edu" =
      (activities, Except.error ApiError.AlreadyEnrolled) ∧
    (signup_for_activity activities "Chess Club" "zoe@mergington.edu").2 =
      Except.ok ("Signed up " ++ "zoe@mergington.edu" ++ " for " ++ "Chess Club") :=
  ⟨(C1_enroll_spec activities "Nonexistent Activity" "x@mergington.edu").1 rfl,
   (C1_enroll_spec activities "Chess Club" "michael@mergington.edu").2.1 _ rfl (by decide),
   by rw [((C1_enroll_spec activities "Chess Club" "zoe@mergington.edu").2.2 _ rfl
       (by decide)).1]⟩

/-- Claim C2: for every roster state, activity name and participant id,
withdraw fails with NotFound when the name is not a key of the roster; fails
with NotEnrolled when the id is not in that activity's participant sequence;
and otherwise succeeds, removing the first occurrence of the id and
returning a confirmation. -/
theorem C2_withdraw_spec (r : Roster) (name p : String) :
    (r.lookup name = none →
      unregister_from_activity r name p = (r, Except.error ApiError.NotFound)) ∧
    (∀ act, r.lookup name = some act → p ∉ act.participants →
      unregister_from_activity r name p = (r, Except.error ApiError.NotEnrolled)) ∧
    (∀ act, r.lookup name = some act → p ∈ act.participants →
      unregister_from_activity r name p =
        (r.setEntry name { act with participants := removeFirst act.participants p },
         Except.ok ("Unregistered " ++ p ++ " from " ++ name)) ∧
      ∀ xs ys, act.participants = xs ++ p :: ys → p ∉ xs →
        removeFirst act.participants p = xs ++ ys) :=
  ⟨fun h => unregister_not_found p h,
   fun act h hp => unregister_not_enrolled h hp,
   fun act h hp => ⟨unregister_ok h hp,
     fun xs ys hxy hnx => by rw [hxy]; exact removeFirst_first_occurrence xs ys hnx⟩⟩

/-- Concrete instances of C2: a missing activity, an absent participant, and
a successful withdrawal of the first list element against the seed data. -/
theorem C2_withdraw_spec_witness :
    unregister_from_activity activities "Nonexistent Activity" "x@mergington.edu" =
      (activities, Except.error ApiError.NotFound) ∧
    unregister_from_activity activities "Chess Club" "zoe@mergington.edu" =
      (activities, Except.error ApiError.NotEnrolled) ∧
    (unregister_from_activity activities "Chess Club" "michael@mergington.edu").2 =
      Except.ok ("Unregistered " ++ "michael@mergington.edu" ++ " from " ++ "Chess Club") ∧
    removeFirst ["michael@mergington.edu", "daniel@mergington.edu"]
      "michael@mergington.edu" = ["daniel@mergington.edu"] :=
  ⟨(C2_withdraw_spec activities "Nonexistent Activity" "x@mergington.edu").1 rfl,
   (C2_withdraw_spec activities "Chess Club" "zoe@mergington.edu").2.1 _ rfl (by decide),
   by rw [((C2_withdraw_spec activities "Chess Club" "michael@mergington.edu").2.2 _ rfl
       (by decide)).1],
   ((C2_withdraw_spec activities "Chess Club" "michael@mergington.edu").2.2 _ rfl
       (by decide)).2 [] ["daniel@mergington.edu"] rfl (by decide)⟩

/-- Claim C4: if activity `a` exists and `p` is not enrolled in it, then
enrolling `p` and then withdrawing `p` restores activity `a`'s record, in
particular its participant sequence, to the pre-enroll state. -/
theorem C4_roundtrip (r : Roster) (a p : String) (act : Activity)
    (h : r.lookup a = some act) (hp : p ∉ act.participants) :
    ∃ r₁ m₁ r₂ m₂,
      signup_for_activity r a p = (r₁, Except.ok m₁) ∧
      unregister_from_activity r₁ a p = (r₂, Except.ok m₂) ∧
      r₂.lookup a = some act := by
  have hl₁ : (r.setEntry a { act with participants := act.participants ++ [p] }).lookup a =
      some { act with participants := act.participants ++ [p] } :=
    lookup_setEntry_self _ h
  have hmem : p ∈ ({ act with participants := act.participants ++ [p] } : Activity).participants := by
    simp
  refine ⟨_, _, _, _, signup_ok h hp, unregister_ok hl₁ hmem, ?_⟩
  rw [lookup_setEntry_self _ hl₁]
  show some ({ act with participants := removeFirst (act.participants ++ [p]) p } : Activity) =
    some act
  have hrf : removeFirst (act.participants ++ [p]) p = act.participants := by
    have h0 := removeFirst_first_occurrence act.participants [] hp
    simpa using h0
  rw [hrf]

/-- Concrete instance of C4 against the seed data. -/
theorem C4_roundtrip_witness :
    ∃ r₁ m₁ r₂ m₂,
      signup_for_activity activities "Soccer Team" "zoe@mergington.edu" =
        (r₁, Except.ok m₁) ∧
      unregister_from_activity r₁ "Soccer Team" "zoe@mergington.edu" =
        (r₂, Except.ok m₂) ∧
      r₂.lookup "Soccer Team" = some
        { description := "Join the school soccer team and compete in inter-school matches",
          schedule := "Tuesdays and Thursdays, 4:00 PM - 6:00 PM",
          max_participants := 25,
          participants := ["alex@mergington.edu", "sarah@mergington.edu"] } :=
  C4_roundtrip activities "Soccer Team" "zoe@mergington.edu" _ rfl (by decide)

/-- Claim C5: enroll never fails for capacity reasons; it succeeds for a
present activity and a fresh participant even when the participant sequence
already has length at or above `max_participants`. -/
theorem C5_no_capacity_check (r : Roster) (a p : String) (act : Activity)
    (h : r.lookup a = some act) (hp : p ∉ act.participants)
    (_hcap : act.max_participants ≤ act.participants.length) :
    ∃ q m, signup_for_activity r a p = (q, Except.ok m) :=
  ⟨_, _, signup_ok h hp⟩

/-- Concrete instance of C5: an activity already over its capacity of 1
still accepts a new signup. -/
theorem C5_no_capacity_check_witness :
    ∃ q m, signup_for_activity
      [("Tiny Club",
        { description := "d",
          schedule := "s",
          max_participants := 1,
          participants := ["a@mergington.edu", "b@mergington.edu"] })]
      "Tiny Club" "c@mergington.edu" = (q, Except.ok m) :=
  C5_no_capacity_check _ "Tiny Club" "c@mergington.edu" _ rfl (by decide) (by decide)

/-- Claim C3: in every roster state reachable from the seed data by any
sequence of enroll and withdraw calls, no activity's participant sequence
contains the same identifier twice. -/
theorem C3_no_duplicate_participants (r : Roster) (h : Reachable r) : rosterInv r := by
  induction h with
  | seed => exact rosterInv_activities
  | enroll r n p _ ih => exact rosterInv_signup n p ih
  | withdraw r n p _ ih => exact rosterInv_unregister n p ih

/-- Concrete instance of C3: the invariant holds at the seed state. -/
theorem C3_no_duplicate_participants_witness : rosterInv activities :=
  C3_no_duplicate_participants activities Reachable.seed

/-- Claim C6: whenever enroll or withdraw fails, the post-state roster is
exactly the pre-state roster. -/
theorem C6_atomic_on_error (r : Roster) (n p : String) (e : ApiError) :
    ((signup_for_activity r n p).2 = Except.error e →
      (signup_for_activity r n p).1 = r) ∧
    ((unregister_from_activity r n p).2 = Except.error e →
      (unregister_from_activity r n p).1 = r) := by
  constructor
  · intro he
    cases hl : r.lookup n with
    | none => rw [signup_not_found p hl]
    | some act =>
      by_cases hp : p ∈ act.participants
      · rw [signup_already hl hp]
      · rw [signup_ok hl hp] at he
        simp at he
  · intro he
    cases hl : r.lookup n with
    | none => rw [unregister_not_found p hl]
    | some act =>
      by_cases hp : p ∈ act.participants
      · rw [unregister_ok hl hp] at he
        simp at he
      · rw [unregister_not_enrolled hl hp]

/-- Concrete instance of C6: failed calls against the seed data leave it
untouched. -/
theorem C6_atomic_on_error_witness :
    (signup_for_activity activities "Nonexistent Activity" "x@mergington.edu").1 =
      activities ∧
    (unregister_from_activity activities "Nonexistent Activity" "x@mergington.edu").1 =
      activities :=
  ⟨(C6_atomic_on_error activities "Nonexistent Activity" "x@mergington.edu"
      ApiError.NotFound).1 rfl,
   (C6_atomic_on_error activities "Nonexistent Activity" "x@mergington.edu"
      ApiError.NotFound).2 rfl⟩

/-- Claim C7: for every activity name that is not a key of the roster, both
enroll and withdraw fail with NotFound. -/
theorem C7_absent_activity (r : Roster) (name p : String) (h : r.lookup name = none) :
    signup_for_activity r name p = (r, Except.error ApiError.NotFound) ∧
    unregister_from_activity r name p = (r, Except.error ApiError.NotFound) :=
  ⟨signup_not_found p h, unregister_not_found p h⟩

/-- Concrete instance of C7 against the seed data. -/
theorem C7_absent_activity_witness :
    signup_for_activity activities "Nonexistent Activity" "s@mergington.edu" =
      (activities, Except.error ApiError.NotFound) ∧
    unregister_from_activity activities "Nonexistent Activity" "s@mergington.edu" =
      (activities, Except.error ApiError.NotFound) :=
  C7_absent_activity activities "Nonexistent Activity" "s@mergington.edu" rfl

/-- Claim C8: listing activities always succeeds, returns the mapping as-is
and never mutates the state; two consecutive calls with no intervening
mutation return identical results and leave the state unchanged. -/
theorem C8_list_pure (r : Roster) :
    (get_activities r).2 = r ∧
    (get_activities r).1 = r ∧
    (get_activities (get_activities r).1).2 = (get_activities r).2 ∧
    (get_activities (get_activities r).1).1 = r :=
  ⟨rfl, rfl, rfl, rfl⟩

/-- Claim C9: the seed "Soccer Team" scenario: initial participants and
capacity, one successful signup giving three participants including the new
id, and a duplicate signup rejected with AlreadyEnrolled. -/
theorem C9_soccer_scenario :
    (activities.lookup "Soccer Team").map Activity.participants =
      some ["alex@mergington.edu", "sarah@mergington.edu"] ∧
    (activities.lookup "Soccer Team").map Activity.max_participants = some 25 ∧
    (signup_for_activity activities "Soccer Team" "newstudent@mergington.edu").2 =
      Except.ok ("Signed up " ++ "newstudent@mergington.edu" ++ " for " ++ "Soccer Team") ∧
    ((signup_for_activity activities "Soccer Team" "newstudent@mergington.edu").1.lookup
        "Soccer Team").map (fun a => a.participants.length) = some 3 ∧
    "newstudent@mergington.edu" ∈
      (((signup_for_activity activities "Soccer Team" "newstudent@mergington.edu").1.lookup
        "Soccer Team").map Activity.participants).getD [] ∧
    (signup_for_activity
        (signup_for_activity activities "Soccer Team" "newstudent@mergington.edu").1
        "Soccer Team" "newstudent@mergington.edu").2 = Except.error ApiError.AlreadyEnrolled := by
  refine ⟨rfl, rfl, rfl, rfl, ?_, rfl⟩
  decide

/-- Claim C10: a successful enroll or withdraw changes only the target
activity's participant sequence: the key sequence of the roster, every other
activity's record, and the target's description, schedule and
`max_participants` are unchanged. -/
theorem C10_success_frame (r : Roster) (a p : String) :
    (∀ q m, signup_for_activity r a p = (q, Except.ok m) →
      q.map Prod.fst = r.map Prod.fst ∧
      (∀ n, n ≠ a → q.lookup n = r.lookup n) ∧
      ∃ act act₁, r.lookup a = some act ∧ q.lookup a = some act₁ ∧
        act₁.description = act.description ∧
        act₁.schedule = act.schedule ∧
        act₁.max_participants = act.max_participants ∧
        act₁.participants = act.participants ++ [p]) ∧
    (∀ q m, unregister_from_activity r a p = (q, Except.ok m) →
      q.map Prod.fst = r.map Prod.fst ∧
      (∀ n, n ≠ a → q.lookup n = r.lookup n) ∧
      ∃ act act₁, r.lookup a = some act ∧ q.lookup a = some act₁ ∧
        act₁.description = act.description ∧
        act₁.schedule = act.schedule ∧
        act₁.max_participants = act.max_participants ∧
        act₁.participants = removeFirst act.participants p) := by
  constructor
  · intro q m hok
    cases hl : r.lookup a with
    | none => rw [signup_not_found p hl] at hok; simp at hok
    | some act =>
      by_cases hp : p ∈ act.participants
      · rw [signup_already hl hp] at hok; simp at hok
      · rw [signup_ok hl hp] at hok
        have hq : r.setEntry a { act with participants := act.participants ++ [p] } = q :=
          congrArg Prod.fst hok
        subst hq
        exact ⟨setEntry_keys r a _, fun n hn => lookup_setEntry_ne _ hn,
          act, { act with participants := act.participants ++ [p] },
          rfl, lookup_setEntry_self _ hl, rfl, rfl, rfl, rfl⟩
  · intro q m hok
    cases hl : r.lookup a with
    | none => rw [unregister_not_found p hl] at hok; simp at hok
    | some act =>
      by_cases hp : p ∈ act.participants
      · rw [unregister_ok hl hp] at hok
        have hq : r.setEntry a { act with participants := removeFirst act.participants p } = q :=
          congrArg Prod.fst hok
        subst hq
        exact ⟨setEntry_keys r a _, fun n hn => lookup_setEntry_ne _ hn,
          act, { act with participants := removeFirst act.participants p },
          rfl, lookup_setEntry_self _ hl, rfl, rfl, rfl, rfl⟩
      · rw [unregister_not_enrolled hl hp] at hok; simp at hok

/-- Concrete instance of C10: a signup to and a withdrawal from
"Soccer Team" both leave "Chess Club" exactly as it was. -/
theorem C10_success_frame_witness :
    (signup_for_activity activities "Soccer Team" "zz@mergington.edu").1.lookup
      "Chess Club" = activities.lookup "Chess Club" ∧
    (unregister_from_activity activities "Soccer Team" "alex@mergington.edu").1.lookup
      "Chess Club" = activities.lookup "Chess Club" :=
  ⟨((C10_success_frame activities "Soccer Team" "zz@mergington.edu").1 _ _ rfl).2.1
      "Chess Club" (by decide),
   ((C10_success_frame activities "Soccer Team" "alex@mergington.edu").2 _ _ rfl).2.1
      "Chess Club" (by decide)⟩
